import Mathlib

/-!
Shallow embedding of the monitoring core of `mariadb-encryption-monitor`
(Go): the alert-deduplication state machine (`internal/alert`), the metrics
retention store (`internal/storage/metrics.go`) and the per-pair monitoring
step (`internal/monitor`), together with theorems settling the claims about
them.

Conventions of the embedding:
- `float64` values (lag seconds, thresholds) are embedded as `ℚ`; the only
  arithmetic performed on them in the embedded code is comparison.
- `time.Time` values are embedded as `Int` (seconds since epoch);
  `time.Duration` values as `Int` seconds.
- Go `error` values are embedded as `Option String` (`none` = nil error,
  `some e` = an error whose rendered text is `e`).
- Go maps are embedded as association lists with a unique-key update
  discipline; Go map iteration order is unspecified, the list order is one
  admissible order.
- Go's `fmt.Sprintf` calls are embedded as explicit string concatenations;
  `%.2f` is embedded by `fmtF2` below.
-/

/-- Embeds Go `fmt` rendering of a `%v` verb applied to an `error` value:
a nil error renders as the five characters `<nil>`, a non-nil error renders
as its text. -/
def errStr : Option String → String
  | none => "<nil>"
  | some e => e

/-- Pads a natural number below 100 to two decimal digits. Helper for
`fmtF2`. -/
def pad2 (n : Nat) : String :=
  if n < 10 then "0" ++ toString n else toString n

/-- Embeds Go `fmt.Sprintf("%.2f", x)`: fixed-point rendering with two
digits after the decimal point.  The embedding rounds `100 * x` to the
nearest integer (ties upward), computed as
`⌊(200 * num + den) / (2 * den)⌋` on the reduced fraction; the exact
tie-breaking convention of the Go runtime is irrelevant to every claim,
which only depend on the rendering being a fixed function of the numeric
value. -/
def fmtF2 (q : ℚ) : String :=
  let n : Int := Int.fdiv (200 * q.num + q.den) (2 * q.den)
  let sign := if n < 0 then "-" else ""
  let m : Nat := n.natAbs
  sign ++ toString (m / 100) ++ "." ++ pad2 (m % 100)

namespace alert

/-- Embeds `alert.Alert` (internal/alert): one alert record. `Timestamp`
is seconds since epoch; `type` holds the Go `Type` field. -/
structure Alert where
  id : String
  timestamp : Int
  severity : String
  type : String
  message : String
  resolved : Bool
deriving Repr, DecidableEq

/-- Looks up a key in an association list embedding a Go map. -/
def lookupKey (k : String) (l : List (String × Alert)) : Option Alert :=
  (l.find? (fun p => p.1 = k)).map (fun p => p.2)

/-- Updates a key in an association list embedding a Go map assignment
`m[k] = v`: any previous binding of `k` is dropped and the new binding
appended.  Go map iteration order is unspecified; this picks one admissible
order and keeps keys unique by construction. -/
def insertKey (k : String) (v : Alert) (l : List (String × Alert)) :
    List (String × Alert) :=
  (l.filter (fun p => p.1 ≠ k)) ++ [(k, v)]

/-- Removes a key from an association list, embedding Go `delete(m, k)`. -/
def eraseKey (k : String) (l : List (String × Alert)) :
    List (String × Alert) :=
  l.filter (fun p => p.1 ≠ k)

/-- Embeds the state of `alert.AlertManager`: the append-only history slice
`alerts` and the active-alert map `activeAlerts`.  In Go the map holds
`*Alert` pointers, but each pointee is freshly allocated by `addAlert` and
never aliased by the history slice (the history receives a value copy), so
the map is embedded by value.  `replicaLagThreshold` embeds
`config.ReplicaLagThreshold.Seconds()`. -/
structure AlertManager where
  replicaLagThreshold : ℚ
  alerts : List Alert
  activeAlerts : List (String × Alert)
deriving Repr, DecidableEq

/-- Embeds `NewAlertManager`: empty history, empty active map. -/
def newAlertManager (threshold : ℚ) : AlertManager :=
  { replicaLagThreshold := threshold, alerts := [], activeAlerts := [] }

/-- Embeds `AlertManager.addAlert`: if an active alert already exists under
`key` with the same rendered message, the call is a no-op; otherwise the
active map is updated to the new alert and a copy of it is appended to the
history slice. -/
def addAlert (am : AlertManager) (key : String) (a : Alert) : AlertManager :=
  match lookupKey key am.activeAlerts with
  | some existing =>
      if existing.message = a.message then am
      else { am with
              activeAlerts := insertKey key a am.activeAlerts,
              alerts := am.alerts ++ [a] }
  | none =>
      { am with
          activeAlerts := insertKey key a am.activeAlerts,
          alerts := am.alerts ++ [a] }

/-- Embeds `AlertManager.resolveAlert`.  The Go code sets
`alert.Resolved = true` through the map's `*Alert` pointer and then deletes
the key.  The pointee is a private copy reachable only through the map
entry being deleted — the history slice holds a distinct value copy made in
`addAlert` — so the flag write has no observable effect and the net state
change is removal of the key from the active map.  (The history entry is
left with its `Resolved` flag as appended; see the C1 analysis.) -/
def resolveAlert (am : AlertManager) (key : String) : AlertManager :=
  match lookupKey key am.activeAlerts with
  | some _ => { am with activeAlerts := eraseKey key am.activeAlerts }
  | none => am

/-- Embeds `alert.ReplicaLagMetric`: the lag measurement as handed to the
alert manager. -/
structure ReplicaLagMetric where
  lagSeconds : ℚ
  status : String
  error : Option String
deriving Repr, DecidableEq

/-- Message rendered by `EvaluateReplicaLag` for an over-threshold lag. -/
def lagWarnMsg (pairName : String) (lag threshold : ℚ) : String :=
  "[" ++ pairName ++ "] Replica lag (" ++ fmtF2 lag ++
    " seconds) exceeds threshold (" ++ fmtF2 threshold ++ " seconds)"

/-- Message rendered by `EvaluateReplicaLag` for stopped replication. -/
def lagStoppedMsg (pairName : String) (e : Option String) : String :=
  "[" ++ pairName ++ "] Replication stopped: " ++ errStr e

/-- Embeds `AlertManager.EvaluateReplicaLag`.  `metric` is the Go pointer
argument (`none` = nil); `now` embeds the `time.Now()` calls used for the
alert id and timestamp. -/
def evaluateReplicaLag (am : AlertManager) (pairName : String)
    (metric : Option ReplicaLagMetric) (now : Int) : AlertManager :=
  match metric with
  | none => am
  | some m =>
      let alertKey := "replica_lag_" ++ pairName
      if m.status = "ok" ∧ m.lagSeconds > am.replicaLagThreshold then
        addAlert am alertKey
          { id := alertKey ++ "_" ++ toString now,
            timestamp := now,
            severity := "WARNING",
            type := "replica_lag",
            message := lagWarnMsg pairName m.lagSeconds am.replicaLagThreshold,
            resolved := false }
      else if m.status = "replication_stopped" then
        addAlert am alertKey
          { id := alertKey ++ "_" ++ toString now,
            timestamp := now,
            severity := "CRITICAL",
            type := "replication_stopped",
            message := lagStoppedMsg pairName m.error,
            resolved := false }
      else
        resolveAlert am alertKey

/-- Embeds `alert.ChecksumResult`: checksum data for alert evaluation.
`matchFlag` holds the Go `Match` field (`match` is reserved in Lean). -/
structure ChecksumResult where
  tableName : String
  sourceChecksum : String
  targetChecksum : String
  matchFlag : Bool
  error : Option String
deriving Repr, DecidableEq

/-- Message rendered by `EvaluateChecksum` for a mismatch. -/
def checksumMismatchMsg (pairName : String) (r : ChecksumResult) : String :=
  "[" ++ pairName ++ "] Checksum mismatch for table " ++ r.tableName ++
    " (source: " ++ r.sourceChecksum ++ ", target: " ++ r.targetChecksum ++ ")"

/-- Message rendered by `EvaluateChecksum` for a validation error. -/
def checksumErrorMsg (pairName : String) (r : ChecksumResult) : String :=
  "[" ++ pairName ++ "] Checksum validation error for table " ++
    r.tableName ++ ": " ++ errStr r.error

/-- Embeds `AlertManager.EvaluateChecksum`. -/
def evaluateChecksum (am : AlertManager) (pairName : String)
    (result : Option ChecksumResult) (now : Int) : AlertManager :=
  match result with
  | none => am
  | some r =>
      let alertKey := "checksum_" ++ pairName ++ "_" ++ r.tableName
      if ¬r.matchFlag ∧ r.error = none then
        addAlert am alertKey
          { id := alertKey ++ "_" ++ toString now,
            timestamp := now,
            severity := "CRITICAL",
            type := "checksum_mismatch",
            message := checksumMismatchMsg pairName r,
            resolved := false }
      else if r.error ≠ none then
        addAlert am alertKey
          { id := alertKey ++ "_" ++ toString now,
            timestamp := now,
            severity := "WARNING",
            type := "checksum_error",
            message := checksumErrorMsg pairName r,
            resolved := false }
      else
        resolveAlert am alertKey

/-- Embeds `alert.ConsistencyResult`: row-count data for alert
evaluation. -/
structure ConsistencyResult where
  tableName : String
  sourceRowCount : Int
  targetRowCount : Int
  consistent : Bool
  error : Option String
deriving Repr, DecidableEq

/-- Message rendered by `EvaluateConsistency` for a row-count mismatch. -/
def consistencyMismatchMsg (pairName : String) (r : ConsistencyResult) :
    String :=
  "[" ++ pairName ++ "] Row count mismatch for table " ++ r.tableName ++
    " (source: " ++ toString r.sourceRowCount ++ ", target: " ++
    toString r.targetRowCount ++ ")"

/-- Message rendered by `EvaluateConsistency` for a check error. -/
def consistencyErrorMsg (pairName : String) (r : ConsistencyResult) :
    String :=
  "[" ++ pairName ++ "] Consistency check error for table " ++
    r.tableName ++ ": " ++ errStr r.error

/-- Embeds `AlertManager.EvaluateConsistency`. -/
def evaluateConsistency (am : AlertManager) (pairName : String)
    (result : Option ConsistencyResult) (now : Int) : AlertManager :=
  match result with
  | none => am
  | some r =>
      let alertKey := "consistency_" ++ pairName ++ "_" ++ r.tableName
      if ¬r.consistent ∧ r.error = none then
        addAlert am alertKey
          { id := alertKey ++ "_" ++ toString now,
            timestamp := now,
            severity := "CRITICAL",
            type := "consistency_mismatch",
            message := consistencyMismatchMsg pairName r,
            resolved := false }
      else if r.error ≠ none then
        addAlert am alertKey
          { id := alertKey ++ "_" ++ toString now,
            timestamp := now,
            severity := "WARNING",
            type := "consistency_error",
            message := consistencyErrorMsg pairName r,
            resolved := false }
      else
        resolveAlert am alertKey

/-- Embeds `AlertManager.GetActiveAlerts`: one dereferenced copy per entry
of the active map. -/
def getActiveAlerts (am : AlertManager) : List Alert :=
  am.activeAlerts.map (fun p => p.2)

/-- Embeds `AlertManager.GetAlertHistory`: the last 100 entries of the
history slice (all of it when shorter). -/
def getAlertHistory (am : AlertManager) : List Alert :=
  if am.alerts.length > 100 then
    am.alerts.drop (am.alerts.length - 100)
  else
    am.alerts

end alert

namespace storage

/-- Embeds `storage.ConnectionStatus`. -/
structure ConnectionStatus where
  sourceConnected : Bool
  targetConnected : Bool
  lastChecked : Int
deriving Repr, DecidableEq

/-- Embeds `storage.ReplicaLagMetric`: one lag history entry. -/
structure ReplicaLagMetric where
  databasePair : String
  timestamp : Int
  lagSeconds : ℚ
  status : String
  error : Option String
deriving Repr, DecidableEq

/-- Embeds `storage.ChecksumResult`. -/
structure ChecksumResult where
  databasePair : String
  tableName : String
  sourceChecksum : String
  targetChecksum : String
  matchFlag : Bool
  timestamp : Int
  error : Option String
deriving Repr, DecidableEq

/-- Embeds `storage.ConsistencyResult`. -/
structure ConsistencyResult where
  databasePair : String
  tableName : String
  sourceRowCount : Int
  targetRowCount : Int
  consistent : Bool
  timestamp : Int
  error : Option String
deriving Repr, DecidableEq

/-- Embeds the state of `storage.MetricsStorage`.  The maps keyed by
`database_pair:table_name` and by pair name are embedded as association
lists with unique-key updates.  Note the lag history is a single slice
shared by all pairs. -/
structure MetricsStorage where
  replicaLagHistory : List ReplicaLagMetric
  checksumResults : List (String × ChecksumResult)
  consistencyResults : List (String × ConsistencyResult)
  connectionStatus : List (String × ConnectionStatus)
  maxHistorySize : Nat
  historyDuration : Int
deriving Repr, DecidableEq

/-- Embeds `NewMetricsStorage`: empty state, cap 8640 entries, 24-hour
(86400-second) window. -/
def newMetricsStorage : MetricsStorage :=
  { replicaLagHistory := [],
    checksumResults := [],
    consistencyResults := [],
    connectionStatus := [],
    maxHistorySize := 8640,
    historyDuration := 24 * 3600 }

/-- Embeds the trim loop of `StoreReplicaLag`
(`for i, m := range history: if m.Timestamp.After(cutoff) then history =
history[i:] and break`): the suffix starting at the first entry strictly
newer than the cutoff, or the list unchanged when no entry is newer. -/
def trimAfter (cutoff : Int) : List ReplicaLagMetric →
    Option (List ReplicaLagMetric)
  | [] => none
  | m :: rest =>
      if cutoff < m.timestamp then some (m :: rest) else trimAfter cutoff rest

/-- The trim loop of `StoreReplicaLag` including the no-break case, in
which the history is left unchanged. -/
def trimHistory (cutoff : Int) (h : List ReplicaLagMetric) :
    List ReplicaLagMetric :=
  match trimAfter cutoff h with
  | some s => s
  | none => h

/-- Embeds `MetricsStorage.StoreReplicaLag`: append a copy of the metric,
run the 24-hour trim loop, then enforce the entry-count cap.  `now` embeds
the `time.Now()` used to compute the cutoff. -/
def storeReplicaLag (ms : MetricsStorage) (metric : ReplicaLagMetric)
    (now : Int) : MetricsStorage :=
  let h := ms.replicaLagHistory ++ [metric]
  let h := trimHistory (now - ms.historyDuration) h
  let h := if h.length > ms.maxHistorySize then
             h.drop (h.length - ms.maxHistorySize)
           else h
  { ms with replicaLagHistory := h }

/-- Embeds the backward scan of `GetCurrentMetrics` that builds the
latest-lag-per-pair map: walk the (already reversed) history, inserting an
entry for a pair only when the pair is not yet present. -/
def latestLoop : List ReplicaLagMetric →
    List (String × ReplicaLagMetric) → List (String × ReplicaLagMetric)
  | [], acc => acc
  | m :: rest, acc =>
      if (acc.find? (fun p => p.1 = m.databasePair)).isSome then
        latestLoop rest acc
      else
        latestLoop rest (acc ++ [(m.databasePair, m)])

/-- Embeds the `ReplicaLag` field of the snapshot returned by
`MetricsStorage.GetCurrentMetrics`: the latest-lag-per-pair map, derived by
scanning the lag history from its last entry down to its first. -/
def getCurrentMetricsReplicaLag (ms : MetricsStorage) :
    List (String × ReplicaLagMetric) :=
  latestLoop ms.replicaLagHistory.reverse []

/-- Looks up a pair in the latest-lag map built by `latestLoop`. -/
def lookupLag (k : String) (l : List (String × ReplicaLagMetric)) :
    Option ReplicaLagMetric :=
  (l.find? (fun p => p.1 = k)).map (fun p => p.2)

/-- Embeds `MetricsStorage.StoreChecksumResult`: last-value overwrite keyed
by `pair:table`. -/
def storeChecksumResult (ms : MetricsStorage) (r : ChecksumResult) :
    MetricsStorage :=
  let key := r.databasePair ++ ":" ++ r.tableName
  { ms with checksumResults :=
      (ms.checksumResults.filter (fun p => p.1 ≠ key)) ++ [(key, r)] }

/-- Embeds `MetricsStorage.StoreConsistencyResult`: last-value overwrite
keyed by `pair:table`. -/
def storeConsistencyResult (ms : MetricsStorage) (r : ConsistencyResult) :
    MetricsStorage :=
  let key := r.databasePair ++ ":" ++ r.tableName
  { ms with consistencyResults :=
      (ms.consistencyResults.filter (fun p => p.1 ≠ key)) ++ [(key, r)] }

/-- Embeds `MetricsStorage.UpdateConnectionStatus`: last-value overwrite
keyed by pair name. -/
def updateConnectionStatus (ms : MetricsStorage) (pairName : String)
    (status : ConnectionStatus) : MetricsStorage :=
  { ms with connectionStatus :=
      (ms.connectionStatus.filter (fun p => p.1 ≠ pairName)) ++
        [(pairName, status)] }

end storage

namespace monitor

/-- Embeds `monitor.ReplicaLagMetric` (internal/monitor/replica_lag.go). -/
structure ReplicaLagMetric where
  timestamp : Int
  lagSeconds : ℚ
  status : String
  error : Option String
deriving Repr, DecidableEq

/-- Embeds the outcome of the `SHOW SLAVE STATUS` interaction that
`MeasureLag` classifies: connection acquisition failure, query failure,
scan/columns failure, no row at all, or one row carrying the (possibly
NULL) `Slave_IO_Running`, `Slave_SQL_Running` and `Seconds_Behind_Master`
values as extracted by the column scan (`none` = column absent or value
NULL/unparseable, exactly the cases in which the Go `sql.Null*` holder
stays invalid). -/
inductive SlaveStatusOutcome where
  | connectionError (e : String)
  | queryError (e : String)
  | scanError (e : String)
  | noRows
  | row (slaveIORunning slaveSQLRunning : Option String)
      (secondsBehindMaster : Option ℚ)
deriving Repr, DecidableEq

/-- Embeds `ReplicaLagMonitor.MeasureLag` as a function of the query
outcome; `now` embeds the `time.Now()` taken for the metric timestamp.
Follows the Go control flow branch by branch, including the error texts. -/
def measureLag (q : SlaveStatusOutcome) (now : Int) : ReplicaLagMetric :=
  match q with
  | .connectionError e =>
      { timestamp := now, lagSeconds := 0, status := "connection_error",
        error := some e }
  | .queryError e =>
      { timestamp := now, lagSeconds := 0, status := "query_error",
        error := some ("failed to query slave status: " ++ e) }
  | .scanError e =>
      { timestamp := now, lagSeconds := 0, status := "error",
        error := some e }
  | .noRows =>
      { timestamp := now, lagSeconds := 0, status := "no_replication",
        error := some
          "no replication configured (SHOW SLAVE STATUS returned no rows)" }
  | .row io sql sbm =>
      match io, sql with
      | some i, some s =>
          if i ≠ "Yes" ∨ s ≠ "Yes" then
            { timestamp := now, lagSeconds := 0,
              status := "replication_stopped",
              error := some ("replication not running (IO: " ++ i ++
                ", SQL: " ++ s ++ ")") }
          else
            match sbm with
            | some v =>
                { timestamp := now, lagSeconds := v, status := "ok",
                  error := none }
            | none =>
                { timestamp := now, lagSeconds := 0,
                  status := "lag_unknown",
                  error := some
                    "seconds_behind_master is NULL (replication may be initializing)" }
      | _, _ =>
          { timestamp := now, lagSeconds := 0, status := "status_unknown",
            error := some
              "could not determine replication status (Slave_IO_Running or Slave_SQL_Running not found)" }

/-- Embeds `monitor.ChecksumResult` (internal/monitor/checksum.go). -/
structure ChecksumResult where
  tableName : String
  sourceChecksum : String
  targetChecksum : String
  matchFlag : Bool
  timestamp : Int
  error : Option String
deriving Repr, DecidableEq

/-- Embeds the outcome of one `CHECKSUM TABLE` query as consumed by
`calculateChecksum`: query failure, no result row, scan failure, a NULL
checksum (table may not exist), or a value (already rendered by the
`%v` verb to its string form). -/
inductive ChecksumQueryOutcome where
  | queryFailed (e : String)
  | noRows
  | scanFailed (e : String)
  | nullChecksum
  | value (v : String)
deriving Repr, DecidableEq

/-- Embeds `ChecksumValidator.calculateChecksum` as a function of the query
outcome: a rendered checksum string or an error text. -/
def calculateChecksum : ChecksumQueryOutcome → Except String String
  | .queryFailed e => .error ("checksum query failed: " ++ e)
  | .noRows => .error "no checksum result returned"
  | .scanFailed e => .error ("failed to scan checksum result: " ++ e)
  | .nullChecksum => .error "checksum is NULL (table may not exist)"
  | .value v => .ok v

/-- Embeds `ChecksumValidator.ValidateTable` as a function of the
connection-acquisition outcomes (`none` = success, `some e` = error `e`)
and the two per-side checksum query outcomes.  Fields are filled in the
order the Go code assigns them; `Match` keeps its zero value `false` on
every error path. -/
def validateTable (tableName : String) (srcConnErr tgtConnErr : Option String)
    (srcQ tgtQ : ChecksumQueryOutcome) (now : Int) : ChecksumResult :=
  let base : ChecksumResult :=
    { tableName := tableName, sourceChecksum := "", targetChecksum := "",
      matchFlag := false, timestamp := now, error := none }
  match srcConnErr with
  | some e => { base with error := some ("source connection error: " ++ e) }
  | none =>
    match tgtConnErr with
    | some e => { base with error := some ("target connection error: " ++ e) }
    | none =>
      match calculateChecksum srcQ with
      | .error e =>
          { base with error := some ("source checksum error: " ++ e) }
      | .ok sc =>
        match calculateChecksum tgtQ with
        | .error e =>
            { base with
                sourceChecksum := sc,
                error := some ("target checksum error: " ++ e) }
        | .ok tc =>
            { base with
                sourceChecksum := sc,
                targetChecksum := tc,
                matchFlag := sc == tc,
                error := none }

/-- The pair-monitor identity data of `monitor.DatabasePairMonitor` that
`monitorDatabasePair` reads: its name and monitored table list. -/
structure DatabasePairMonitor where
  pairName : String
  tables : List String
deriving Repr, DecidableEq

/-- The shared state that `MonitoringEngine.monitorDatabasePair` mutates:
the metrics store and the alert manager. -/
structure SystemState where
  storage : storage.MetricsStorage
  alertMgr : alert.AlertManager
deriving Repr, DecidableEq

/-- The field-for-field conversion of a monitor checksum result to the
alert-evaluation type performed inline in `monitorDatabasePair`. -/
def toAlertChecksum (r : ChecksumResult) : alert.ChecksumResult :=
  { tableName := r.tableName, sourceChecksum := r.sourceChecksum,
    targetChecksum := r.targetChecksum, matchFlag := r.matchFlag,
    error := r.error }

/-- One iteration of the checksum result loop of `monitorDatabasePair`:
store the result (converted to the storage type) and evaluate it
(converted to the alert type). -/
def checksumStep (pairName : String) (now : Int) (st : SystemState)
    (r : ChecksumResult) : SystemState :=
  let stored : storage.ChecksumResult :=
    { databasePair := pairName, tableName := r.tableName,
      sourceChecksum := r.sourceChecksum, targetChecksum := r.targetChecksum,
      matchFlag := r.matchFlag, timestamp := r.timestamp, error := r.error }
  { storage := storage.storeChecksumResult st.storage stored,
    alertMgr := alert.evaluateChecksum st.alertMgr pairName
      (some (toAlertChecksum r)) now }

/-- Embeds `monitor.ConsistencyResult` (consistency checker). -/
structure ConsistencyResult where
  tableName : String
  sourceRowCount : Int
  targetRowCount : Int
  consistent : Bool
  timestamp : Int
  error : Option String
deriving Repr, DecidableEq

/-- One iteration of the consistency result loop of
`monitorDatabasePair`. -/
def consistencyStep (pairName : String) (now : Int) (st : SystemState)
    (r : ConsistencyResult) : SystemState :=
  let stored : storage.ConsistencyResult :=
    { databasePair := pairName, tableName := r.tableName,
      sourceRowCount := r.sourceRowCount, targetRowCount := r.targetRowCount,
      consistent := r.consistent, timestamp := r.timestamp, error := r.error }
  let evaluated : alert.ConsistencyResult :=
    { tableName := r.tableName, sourceRowCount := r.sourceRowCount,
      targetRowCount := r.targetRowCount, consistent := r.consistent,
      error := r.error }
  { storage := storage.storeConsistencyResult st.storage stored,
    alertMgr := alert.evaluateConsistency st.alertMgr pairName
      (some evaluated) now }

/-- The field-for-field conversion of a monitor lag metric to the storage
type performed inline in `monitorDatabasePair`. -/
def toStorageLag (pairName : String) (metric : ReplicaLagMetric) :
    storage.ReplicaLagMetric :=
  { databasePair := pairName, timestamp := metric.timestamp,
    lagSeconds := metric.lagSeconds, status := metric.status,
    error := metric.error }

/-- The field-for-field conversion of a monitor lag metric to the
alert-evaluation type performed inline in `monitorDatabasePair`. -/
def toAlertLag (metric : ReplicaLagMetric) : alert.ReplicaLagMetric :=
  { lagSeconds := metric.lagSeconds, status := metric.status,
    error := metric.error }

/-- The connection-status refresh at the top of `monitorDatabasePair`. -/
def healthStep (st : SystemState) (pairName : String)
    (sourceOK targetOK : Bool) (now : Int) : SystemState :=
  let health : storage.ConnectionStatus :=
    { sourceConnected := sourceOK, targetConnected := targetOK,
      lastChecked := now }
  { st with storage :=
      storage.updateConnectionStatus st.storage pairName health }

/-- The lag-probe goroutine body of `monitorDatabasePair`: store the
measured metric and evaluate it. -/
def lagStep (st : SystemState) (pairName : String)
    (lagOutcome : SlaveStatusOutcome) (now : Int) : SystemState :=
  let metric := measureLag lagOutcome now
  { storage := storage.storeReplicaLag st.storage
      (toStorageLag pairName metric) now,
    alertMgr := alert.evaluateReplicaLag st.alertMgr pairName
      (some (toAlertLag metric)) now }

/-- Embeds `MonitoringEngine.monitorDatabasePair`.  The database side is
abstracted into oracles: `sourceOK`/`targetOK` are the health-check
results, `lagOutcome` is what `MeasureLag` would observe, and
`checksumResults`/`consistencyResults` are what `ValidateAllTables` and
`CheckAllTables` would return.  The three goroutines are joined at the
trailing `wg.Wait()`; their effects on the store and alert manager are
applied here in program-text order (the claims proved about this function
do not depend on the interleaving, only on which probes take effect). -/
def monitorDatabasePair (st : SystemState) (pm : DatabasePairMonitor)
    (sourceOK targetOK : Bool) (lagOutcome : SlaveStatusOutcome)
    (checksumResults : List ChecksumResult)
    (consistencyResults : List ConsistencyResult) (now : Int) : SystemState :=
  let st : SystemState := healthStep st pm.pairName sourceOK targetOK now
  let st : SystemState :=
    if targetOK then lagStep st pm.pairName lagOutcome now else st
  if pm.tables.length > 0 then
    let st : SystemState :=
      if sourceOK && targetOK then
        checksumResults.foldl (checksumStep pm.pairName now) st
      else st
    if sourceOK && targetOK then
      consistencyResults.foldl (consistencyStep pm.pairName now) st
    else st
  else st

end monitor

namespace alert

theorem lookupKey_filter_ne (k : String) (l : List (String × Alert)) :
    lookupKey k (l.filter (fun p => p.1 ≠ k)) = none := by
  have h : (l.filter (fun p => p.1 ≠ k)).find? (fun p => p.1 = k) = none := by
    rw [List.find?_eq_none]
    intro x hx
    have hmem := (List.mem_filter.mp hx).2
    simp at hmem ⊢
    exact hmem
  simp [lookupKey, h]

theorem find?_filter_ne (k : String) (l : List (String × Alert)) :
    (l.filter (fun p => p.1 ≠ k)).find? (fun p => p.1 = k) = none := by
  rw [List.find?_eq_none]
  intro x hx
  have hmem := (List.mem_filter.mp hx).2
  simpa using hmem

theorem lookupKey_insertKey_self (k : String) (v : Alert)
    (l : List (String × Alert)) : lookupKey k (insertKey k v l) = some v := by
  simp [lookupKey, insertKey, List.find?_append, find?_filter_ne k l,
    List.find?]

theorem lookupKey_eraseKey_self (k : String) (l : List (String × Alert)) :
    lookupKey k (eraseKey k l) = none :=
  lookupKey_filter_ne k l

/-- After `addAlert`, the key is active and its alert carries the message of
the alert just evaluated (either the new alert, or — in the deduplicated
case — the existing active alert, whose message is identical). -/
theorem addAlert_active_message (am : AlertManager) (key : String)
    (b : Alert) :
    ∃ a, lookupKey key (addAlert am key b).activeAlerts = some a ∧
      a.message = b.message := by
  unfold addAlert
  cases h : lookupKey key am.activeAlerts with
  | none =>
      refine ⟨b, ?_, rfl⟩
      simp only [h]
      simp [lookupKey_insertKey_self]
  | some ex =>
      by_cases hm : ex.message = b.message
      · refine ⟨ex, ?_, hm⟩
        simp only [h]
        simp [hm, h]
      · refine ⟨b, ?_, rfl⟩
        simp only [h]
        simp [hm, lookupKey_insertKey_self]

/-- After `resolveAlert`, the key is absent from the active map. -/
theorem lookupKey_resolveAlert_self (am : AlertManager) (key : String) :
    lookupKey key (resolveAlert am key).activeAlerts = none := by
  unfold resolveAlert
  cases h : lookupKey key am.activeAlerts with
  | none => exact h
  | some a =>
      simp only [h]
      simp [lookupKey_eraseKey_self]

/-- C10: evaluating a nil measurement (`nil` pointer, embedded as `none`)
with any of the three evaluation entry points leaves the alert manager
state — history and active alerts — completely unchanged. -/
theorem C10_nil_measurement_noop (am : AlertManager) (pairName : String)
    (now : Int) :
    evaluateReplicaLag am pairName none now = am ∧
    evaluateChecksum am pairName none now = am ∧
    evaluateConsistency am pairName none now = am :=
  ⟨rfl, rfl, rfl⟩

/-- C4: with an alert already active under a key, `addAlert` of an alert
with an identical rendered message is a no-op (no new history entry, state
unchanged), while `addAlert` of an alert whose message differs appends
exactly that one alert to the history and replaces the active alert for
the key. -/
theorem C4_addAlert_dedup (am : AlertManager) (key : String) (a b : Alert)
    (h : lookupKey key am.activeAlerts = some a) :
    (b.message = a.message → addAlert am key b = am) ∧
    (b.message ≠ a.message →
      (addAlert am key b).alerts = am.alerts ++ [b] ∧
      (addAlert am key b).alerts.length = am.alerts.length + 1 ∧
      lookupKey key (addAlert am key b).activeAlerts = some b) := by
  constructor
  · intro hm
    unfold addAlert
    simp only [h]
    simp [hm.symm]
  · intro hm
    unfold addAlert
    simp only [h]
    rw [if_neg (fun hh => hm hh.symm)]
    refine ⟨rfl, by simp, ?_⟩
    simp [lookupKey_insertKey_self]

/-- Concrete alert fixture used by witnesses. -/
def sampleAlert (i : String) (t : Int) (msg : String) : Alert :=
  { id := i, timestamp := t, severity := "WARNING", type := "replica_lag",
    message := msg, resolved := false }

/-- Concrete alert-manager fixture used by witnesses: one alert with
message `m1` active under key `k`. -/
def sampleManager : AlertManager :=
  { replicaLagThreshold := 60,
    alerts := [sampleAlert "i1" 1 "m1"],
    activeAlerts := [("k", sampleAlert "i1" 1 "m1")] }

/-- C4 witness: with an active alert of message `m1` under key `k`, adding
another `m1` alert changes nothing, and adding an `m2` alert appends
exactly it to the history. -/
theorem C4_addAlert_dedup_witness :
    addAlert sampleManager "k" (sampleAlert "i2" 2 "m1") = sampleManager ∧
    (addAlert sampleManager "k" (sampleAlert "i3" 3 "m2")).alerts.length =
      2 := by
  constructor
  · exact (C4_addAlert_dedup sampleManager "k" (sampleAlert "i1" 1 "m1")
      (sampleAlert "i2" 2 "m1") (by decide)).1 rfl
  · have h := ((C4_addAlert_dedup sampleManager "k" (sampleAlert "i1" 1 "m1")
      (sampleAlert "i3" 3 "m2") (by decide)).2 (by decide)).2.1
    rw [h]
    decide

/-- With pairwise-distinct keys, at most one active entry exists per
key. -/
theorem countP_le_one_of_nodup_keys (l : List (String × Alert))
    (h : (l.map Prod.fst).Nodup) (k : String) :
    l.countP (fun p => p.1 = k) ≤ 1 := by
  induction l with
  | nil => simp
  | cons p t ih =>
      rw [List.map_cons, List.nodup_cons] at h
      rw [List.countP_cons]
      by_cases hk : p.1 = k
      · have hz : t.countP (fun p => p.1 = k) = 0 := by
          rw [List.countP_eq_zero]
          intro q hq
          simp only [decide_eq_true_eq]
          intro hqk
          exact h.1 (by
            rw [← hk] at hqk
            exact hqk ▸ List.mem_map_of_mem Prod.fst hq)
        simp [hk, hz]
      · simpa [hk] using ih h.2

/-- C9: `GetAlertHistory` returns exactly the suffix of the `min(n, 100)`
most recent history entries, in their original append order, and
`GetActiveAlerts` returns one alert per active map entry; with
pairwise-distinct keys (which every update preserves) that is exactly one
alert per currently-active condition key, and every active key's alert is
among them. -/
theorem C9_history_and_active (am : AlertManager) :
    getAlertHistory am = am.alerts.drop (am.alerts.length - 100) ∧
    (getAlertHistory am).length = min am.alerts.length 100 ∧
    (getActiveAlerts am).length = am.activeAlerts.length ∧
    (∀ k a, lookupKey k am.activeAlerts = some a → a ∈ getActiveAlerts am) ∧
    ((am.activeAlerts.map Prod.fst).Nodup →
      ∀ k, am.activeAlerts.countP (fun p => p.1 = k) ≤ 1) := by
  have h1 : getAlertHistory am = am.alerts.drop (am.alerts.length - 100) := by
    unfold getAlertHistory
    split
    · rfl
    · rename_i hle
      have hz : am.alerts.length - 100 = 0 := by omega
      rw [hz, List.drop_zero]
  refine ⟨h1, ?_, by simp [getActiveAlerts], ?_, ?_⟩
  · rw [h1, List.length_drop]
    omega
  · intro k a h
    unfold lookupKey at h
    rcases Option.map_eq_some'.mp h with ⟨p, hp, hpa⟩
    exact hpa ▸ List.mem_map_of_mem (fun p => p.2)
      (List.mem_of_find?_eq_some hp)
  · intro hnd k
    exact countP_le_one_of_nodup_keys am.activeAlerts hnd k

/-- C9 witness: a manager with two active alerts under distinct keys and a
two-entry history. -/
theorem C9_history_and_active_witness :
    getAlertHistory
      { replicaLagThreshold := 60,
        alerts := [sampleAlert "i1" 1 "m1", sampleAlert "i2" 2 "m2"],
        activeAlerts := [("k1", sampleAlert "i1" 1 "m1"),
                         ("k2", sampleAlert "i2" 2 "m2")] } =
      [sampleAlert "i1" 1 "m1", sampleAlert "i2" 2 "m2"] ∧
    List.countP (fun p => p.1 = "k1")
      [("k1", sampleAlert "i1" 1 "m1"), ("k2", sampleAlert "i2" 2 "m2")] ≤
      1 := by
  have h := C9_history_and_active
    { replicaLagThreshold := 60,
      alerts := [sampleAlert "i1" 1 "m1", sampleAlert "i2" 2 "m2"],
      activeAlerts := [("k1", sampleAlert "i1" 1 "m1"),
                       ("k2", sampleAlert "i2" 2 "m2")] }
  refine ⟨?_, h.2.2.2.2 (by decide) "k1"⟩
  rw [h.1]
  rfl

/-- C1 (bug exhibit): after a count mismatch opens an alert and a
subsequent consistent, non-erroring measurement for the same key resolves
it, the key is indeed absent from the active alerts, but the entry kept in
the history returned by `GetAlertHistory` still has `Resolved = false`:
`resolveAlert` sets the flag on the active map's private copy just before
deleting it, so the write never reaches the history slice. -/
theorem C1_resolve_leaves_history_unresolved :
    (let am0 := newAlertManager 60
     let am1 := evaluateConsistency am0 "pair1"
       (some { tableName := "users", sourceRowCount := 100,
               targetRowCount := 98, consistent := false,
               error := none }) 1000
     let am2 := evaluateConsistency am1 "pair1"
       (some { tableName := "users", sourceRowCount := 100,
               targetRowCount := 100, consistent := true,
               error := none }) 2000
     lookupKey "consistency_pair1_users" am2.activeAlerts = none ∧
     (getAlertHistory am2).length = 1 ∧
     (getAlertHistory am2).map (fun a => a.resolved) = [false]) := by
  decide

/-- C5: evaluating a lag measurement transitions the pair's lag condition:
status `ok` with lag strictly over the threshold activates it with severity
`WARNING` and a message embedding the measured value and the threshold;
status `replication_stopped` activates it with severity `CRITICAL` and a
message containing the pair name, independently of the `lagSeconds` value;
every other case — including `ok` at or under the threshold — transitions
the condition to inactive (its key leaves the active map). -/
theorem C5_evaluateReplicaLag_transitions (am : AlertManager)
    (pairName : String) (m : ReplicaLagMetric) (now : Int) :
    (m.status = "ok" → m.lagSeconds > am.replicaLagThreshold →
      evaluateReplicaLag am pairName (some m) now =
        addAlert am ("replica_lag_" ++ pairName)
          { id := "replica_lag_" ++ pairName ++ "_" ++ toString now,
            timestamp := now, severity := "WARNING", type := "replica_lag",
            message := lagWarnMsg pairName m.lagSeconds am.replicaLagThreshold,
            resolved := false } ∧
      (∃ a, lookupKey ("replica_lag_" ++ pairName)
          (evaluateReplicaLag am pairName (some m) now).activeAlerts =
            some a ∧
        a.message = lagWarnMsg pairName m.lagSeconds
          am.replicaLagThreshold)) ∧
    (m.status = "replication_stopped" →
      evaluateReplicaLag am pairName (some m) now =
        addAlert am ("replica_lag_" ++ pairName)
          { id := "replica_lag_" ++ pairName ++ "_" ++ toString now,
            timestamp := now, severity := "CRITICAL",
            type := "replication_stopped",
            message := lagStoppedMsg pairName m.error,
            resolved := false } ∧
      (∀ lag2 : ℚ,
        evaluateReplicaLag am pairName
            (some { m with lagSeconds := lag2 }) now =
          evaluateReplicaLag am pairName (some m) now) ∧
      (∃ a, lookupKey ("replica_lag_" ++ pairName)
          (evaluateReplicaLag am pairName (some m) now).activeAlerts =
            some a ∧
        a.message = "[" ++ pairName ++ "] Replication stopped: " ++
          errStr m.error)) ∧
    (¬(m.status = "ok" ∧ m.lagSeconds > am.replicaLagThreshold) →
      m.status ≠ "replication_stopped" →
      evaluateReplicaLag am pairName (some m) now =
        resolveAlert am ("replica_lag_" ++ pairName) ∧
      lookupKey ("replica_lag_" ++ pairName)
        (evaluateReplicaLag am pairName (some m) now).activeAlerts =
          none) := by
  obtain ⟨mlag, mstatus, merr⟩ := m
  dsimp only [evaluateReplicaLag]
  refine ⟨?_, ?_, ?_⟩
  · intro hok hgt
    have hcond : mstatus = "ok" ∧ mlag > am.replicaLagThreshold := ⟨hok, hgt⟩
    rw [if_pos hcond]
    exact ⟨rfl, addAlert_active_message am ("replica_lag_" ++ pairName) _⟩
  · intro hst
    have hne : ¬(mstatus = "ok" ∧ mlag > am.replicaLagThreshold) := by
      rintro ⟨h1, _⟩
      rw [hst] at h1
      exact absurd h1 (by decide)
    rw [if_neg hne, if_pos hst]
    refine ⟨rfl, ?_, addAlert_active_message am ("replica_lag_" ++ pairName) _⟩
    intro lag2
    have hne2 : ¬(mstatus = "ok" ∧ lag2 > am.replicaLagThreshold) := by
      rintro ⟨h1, _⟩
      rw [hst] at h1
      exact absurd h1 (by decide)
    rw [if_neg hne2]
  · intro h1 h2
    rw [if_neg h1, if_neg h2]
    exact ⟨rfl, lookupKey_resolveAlert_self am ("replica_lag_" ++ pairName)⟩

/-- C5 witness: a lag of 75 seconds with status `ok` against a 60-second
threshold activates the lag condition for pair `db1` with the rendered
over-threshold message; a `replication_stopped` measurement activates it
via the critical branch; an `ok` measurement at 5 seconds resolves it. -/
theorem C5_evaluateReplicaLag_transitions_witness :
    (∃ a, lookupKey ("replica_lag_" ++ "db1")
        (evaluateReplicaLag (newAlertManager 60) "db1"
          (some { lagSeconds := 75, status := "ok", error := none })
          10).activeAlerts = some a ∧
      a.message = lagWarnMsg "db1" 75 60) ∧
    (∃ a, lookupKey ("replica_lag_" ++ "db1")
        (evaluateReplicaLag (newAlertManager 60) "db1"
          (some { lagSeconds := 0, status := "replication_stopped",
                  error := some "replication not running (IO: No, SQL: Yes)" })
          10).activeAlerts = some a ∧
      a.message = "[" ++ "db1" ++ "] Replication stopped: " ++
        errStr (some "replication not running (IO: No, SQL: Yes)")) ∧
    lookupKey ("replica_lag_" ++ "db1")
      (evaluateReplicaLag (newAlertManager 60) "db1"
        (some { lagSeconds := 5, status := "ok", error := none })
        10).activeAlerts = none := by
  refine ⟨?_, ?_, ?_⟩
  · exact ((C5_evaluateReplicaLag_transitions (newAlertManager 60) "db1"
      { lagSeconds := 75, status := "ok", error := none } 10).1 rfl
      (by decide)).2
  · exact ((C5_evaluateReplicaLag_transitions (newAlertManager 60) "db1"
      { lagSeconds := 0, status := "replication_stopped",
        error := some "replication not running (IO: No, SQL: Yes)" }
      10).2.1 rfl).2.2
  · exact ((C5_evaluateReplicaLag_transitions (newAlertManager 60) "db1"
      { lagSeconds := 5, status := "ok", error := none } 10).2.2
      (by decide) (by decide)).2

/-- A checksum result carrying a non-nil error always takes the
`WARNING`/`checksum_error` branch of `EvaluateChecksum`. -/
theorem evaluateChecksum_error_warning (am : AlertManager)
    (pairName : String) (now : Int) (r : ChecksumResult)
    (hr : r.error ≠ none) :
    evaluateChecksum am pairName (some r) now =
      addAlert am ("checksum_" ++ pairName ++ "_" ++ r.tableName)
        { id := "checksum_" ++ pairName ++ "_" ++ r.tableName ++ "_" ++
            toString now,
          timestamp := now, severity := "WARNING", type := "checksum_error",
          message := checksumErrorMsg pairName r, resolved := false } := by
  obtain ⟨rt, rsc, rtc, rmf, rerr⟩ := r
  have hr2 : rerr ≠ none := hr
  dsimp only [evaluateChecksum]
  rw [if_neg (fun hc => hr2 hc.2), if_pos hr2]

end alert

namespace monitor

/-- C6: `MeasureLag` classifies each `SHOW SLAVE STATUS` outcome into
exactly one status (it is a function): `ok` exactly when a numeric lag
value is present and both replication threads report `Yes`, carrying that
numeric value; `replication_stopped` whenever the thread states are known
and at least one is not `Yes`, with `lagSeconds` zeroed; `no_replication`
when no replication row exists; `lag_unknown` (with zero lag and a non-nil
error, so zero lag is never conflated with absence of data) when the
threads are running but `Seconds_Behind_Master` is NULL. -/
theorem C6_measureLag_classification (now : Int) :
    (∀ i s v, i = "Yes" → s = "Yes" →
      measureLag (.row (some i) (some s) (some v)) now =
        { timestamp := now, lagSeconds := v, status := "ok",
          error := none }) ∧
    (∀ q, (measureLag q now).status = "ok" →
      ∃ v, q = .row (some "Yes") (some "Yes") (some v) ∧
        (measureLag q now).lagSeconds = v) ∧
    (∀ i s sbm, i ≠ "Yes" ∨ s ≠ "Yes" →
      (measureLag (.row (some i) (some s) sbm) now).status =
        "replication_stopped" ∧
      (measureLag (.row (some i) (some s) sbm) now).lagSeconds = 0) ∧
    (measureLag .noRows now).status = "no_replication" ∧
    ((measureLag (.row (some "Yes") (some "Yes") none) now).status =
        "lag_unknown" ∧
      (measureLag (.row (some "Yes") (some "Yes") none) now).lagSeconds =
        0 ∧
      (measureLag (.row (some "Yes") (some "Yes") none) now).error ≠
        none) := by
  refine ⟨?_, ?_, ?_, rfl, ?_⟩
  · intro i s v hi hs
    subst hi
    subst hs
    dsimp only [measureLag]
    rw [if_neg (by simp)]
  · intro q h
    match q with
    | .connectionError e => exact absurd h (by simp [measureLag])
    | .queryError e => exact absurd h (by simp [measureLag])
    | .scanError e => exact absurd h (by simp [measureLag])
    | .noRows => exact absurd h (by simp [measureLag])
    | .row none _ _ => exact absurd h (by simp [measureLag])
    | .row (some i) none _ => exact absurd h (by simp [measureLag])
    | .row (some i) (some s) sbm =>
        by_cases hcond : i ≠ "Yes" ∨ s ≠ "Yes"
        · dsimp only [measureLag] at h
          rw [if_pos hcond] at h
          exact absurd h (by simp)
        · push_neg at hcond
          obtain ⟨hi, hs⟩ := hcond
          subst hi
          subst hs
          match sbm with
          | some v =>
              refine ⟨v, rfl, ?_⟩
              dsimp only [measureLag]
              rw [if_neg (by simp)]
          | none =>
              dsimp only [measureLag] at h
              rw [if_neg (by simp)] at h
              exact absurd h (by simp)
  · intro i s sbm h
    dsimp only [measureLag]
    rw [if_pos h]
    exact ⟨rfl, rfl⟩
  · refine ⟨?_, ?_, ?_⟩
    · dsimp only [measureLag]
      rw [if_neg (by simp)]
    · dsimp only [measureLag]
      rw [if_neg (by simp)]
    · dsimp only [measureLag]
      rw [if_neg (by simp)]
      simp

/-- C6 witness: concrete classifications — a running replica with a
5-second lag is `ok`; a stopped IO thread is `replication_stopped` with
zeroed lag. -/
theorem C6_measureLag_classification_witness :
    measureLag (.row (some "Yes") (some "Yes") (some 5)) 0 =
      { timestamp := 0, lagSeconds := 5, status := "ok", error := none } ∧
    (measureLag (.row (some "No") (some "Yes") (some 5)) 0).status =
      "replication_stopped" ∧
    (measureLag (.row (some "No") (some "Yes") (some 5)) 0).lagSeconds =
      0 := by
  refine ⟨?_, ?_⟩
  · exact (C6_measureLag_classification 0).1 "Yes" "Yes" 5 rfl rfl
  · exact (C6_measureLag_classification 0).2.2.1 "No" "Yes" (some 5)
      (Or.inl (by decide))

/-- C8: a checksum probe with any failing step — connection acquisition or
either side's `CHECKSUM TABLE` query (including a missing table, surfaced
as a NULL checksum) — yields an error-carrying result, and a match verdict
is computed only when both sides succeeded; the alert engine turns a result
with a non-nil error into an active `WARNING` alert, a mismatch with no
error into an active `CRITICAL` alert, and a match with no error into the
inactive transition; consequently a partial failure (source checksum
obtained, target failed) produces the `WARNING` checksum-error alert, never
the critical mismatch alert. -/
theorem C8_checksum_error_handling (tableName pairName : String)
    (srcConnErr tgtConnErr : Option String)
    (srcQ tgtQ : ChecksumQueryOutcome) (now : Int)
    (am : alert.AlertManager) :
    ((validateTable tableName srcConnErr tgtConnErr srcQ tgtQ now).error =
        none ↔
      srcConnErr = none ∧ tgtConnErr = none ∧
      (∃ sc, calculateChecksum srcQ = Except.ok sc) ∧
      (∃ tc, calculateChecksum tgtQ = Except.ok tc)) ∧
    (∀ sc tc, srcConnErr = none → tgtConnErr = none →
      calculateChecksum srcQ = Except.ok sc →
      calculateChecksum tgtQ = Except.ok tc →
      validateTable tableName srcConnErr tgtConnErr srcQ tgtQ now =
        { tableName := tableName, sourceChecksum := sc,
          targetChecksum := tc, matchFlag := sc == tc, timestamp := now,
          error := none }) ∧
    (∀ r : alert.ChecksumResult, r.error ≠ none →
      alert.evaluateChecksum am pairName (some r) now =
        alert.addAlert am ("checksum_" ++ pairName ++ "_" ++ r.tableName)
          { id := "checksum_" ++ pairName ++ "_" ++ r.tableName ++ "_" ++
              toString now,
            timestamp := now, severity := "WARNING",
            type := "checksum_error",
            message := alert.checksumErrorMsg pairName r,
            resolved := false }) ∧
    (∀ r : alert.ChecksumResult, r.matchFlag = false → r.error = none →
      alert.evaluateChecksum am pairName (some r) now =
        alert.addAlert am ("checksum_" ++ pairName ++ "_" ++ r.tableName)
          { id := "checksum_" ++ pairName ++ "_" ++ r.tableName ++ "_" ++
              toString now,
            timestamp := now, severity := "CRITICAL",
            type := "checksum_mismatch",
            message := alert.checksumMismatchMsg pairName r,
            resolved := false }) ∧
    (∀ r : alert.ChecksumResult, r.matchFlag = true → r.error = none →
      alert.evaluateChecksum am pairName (some r) now =
        alert.resolveAlert am
          ("checksum_" ++ pairName ++ "_" ++ r.tableName) ∧
      alert.lookupKey ("checksum_" ++ pairName ++ "_" ++ r.tableName)
        (alert.evaluateChecksum am pairName (some r) now).activeAlerts =
          none) ∧
    (∀ sc e, srcConnErr = none → tgtConnErr = none →
      calculateChecksum srcQ = Except.ok sc →
      calculateChecksum tgtQ = Except.error e →
      ∃ al, alert.evaluateChecksum am pairName
          (some (toAlertChecksum
            (validateTable tableName srcConnErr tgtConnErr srcQ tgtQ now)))
          now =
        alert.addAlert am ("checksum_" ++ pairName ++ "_" ++ tableName)
          al ∧
        al.severity = "WARNING" ∧ al.type = "checksum_error") := by
  refine ⟨?_, ?_, ?_, ?_, ?_, ?_⟩
  · rcases srcConnErr with _ | e
    · rcases tgtConnErr with _ | e
      · rcases hs : calculateChecksum srcQ with e | sc
        · simp [validateTable, hs]
        · rcases ht : calculateChecksum tgtQ with e | tc
          · simp [validateTable, hs, ht]
          · simp [validateTable, hs, ht]
      · simp [validateTable]
    · simp [validateTable]
  · intro sc tc h1 h2 h3 h4
    subst h1
    subst h2
    simp [validateTable, h3, h4]
  · intro r hr
    exact alert.evaluateChecksum_error_warning am pairName now r hr
  · intro r hmf herr
    obtain ⟨rt, rsc, rtc, rmf, rerr⟩ := r
    have hmf2 : rmf = false := hmf
    have herr2 : rerr = none := herr
    subst hmf2
    subst herr2
    dsimp only [alert.evaluateChecksum]
    rw [if_pos ⟨by simp, rfl⟩]
  · intro r hmf herr
    obtain ⟨rt, rsc, rtc, rmf, rerr⟩ := r
    have hmf2 : rmf = true := hmf
    have herr2 : rerr = none := herr
    subst hmf2
    subst herr2
    dsimp only [alert.evaluateChecksum]
    rw [if_neg (fun hc => by simpa using hc.1), if_neg (by simp)]
    exact ⟨rfl, alert.lookupKey_resolveAlert_self am _⟩
  · intro sc e h1 h2 h3 h4
    subst h1
    subst h2
    have hval : validateTable tableName none none srcQ tgtQ now =
        { tableName := tableName, sourceChecksum := sc, targetChecksum := "",
          matchFlag := false, timestamp := now,
          error := some ("target checksum error: " ++ e) } := by
      dsimp only [validateTable]
      rw [h3, h4]
    rw [hval]
    exact ⟨_, alert.evaluateChecksum_error_warning am pairName now _
      (by simp [toAlertChecksum]), rfl, rfl⟩

/-- C8 witness: source checksum `AAA` obtained, target query failed — the
evaluated alert is the `WARNING` checksum-error alert, not a critical
mismatch. -/
theorem C8_checksum_error_handling_witness :
    ∃ al, alert.evaluateChecksum (alert.newAlertManager 60) "db1"
        (some (toAlertChecksum (validateTable "users" none none
          (.value "AAA") (.queryFailed "timeout") 7))) 7 =
      alert.addAlert (alert.newAlertManager 60)
        ("checksum_" ++ "db1" ++ "_" ++ "users") al ∧
      al.severity = "WARNING" ∧ al.type = "checksum_error" :=
  (C8_checksum_error_handling "users" "db1" none none (.value "AAA")
    (.queryFailed "timeout") 7 (alert.newAlertManager 60)).2.2.2.2.2
    "AAA" ("checksum query failed: " ++ "timeout") rfl rfl rfl rfl

end monitor

namespace storage

theorem trimAfter_eq_none (cutoff : Int) (h : List ReplicaLagMetric)
    (hn : trimAfter cutoff h = none) :
    ∀ m ∈ h, ¬cutoff < m.timestamp := by
  induction h with
  | nil => intro m hm; cases hm
  | cons a t ih =>
      intro m hm
      unfold trimAfter at hn
      by_cases ha : cutoff < a.timestamp
      · rw [if_pos ha] at hn
        cases hn
      · rw [if_neg ha] at hn
        rcases List.mem_cons.mp hm with rfl | hmt
        · exact ha
        · exact ih hn m hmt

theorem trimHistory_pos (cutoff : Int) (h : List ReplicaLagMetric)
    (hs : h.Pairwise (fun a b => a.timestamp ≤ b.timestamp))
    (hex : ∃ x ∈ h, cutoff < x.timestamp) :
    ∀ m ∈ trimHistory cutoff h, cutoff < m.timestamp := by
  induction h with
  | nil =>
      rcases hex with ⟨x, hx, _⟩
      cases hx
  | cons a t ih =>
      rw [List.pairwise_cons] at hs
      by_cases ha : cutoff < a.timestamp
      · have : trimHistory cutoff (a :: t) = a :: t := by
          unfold trimHistory trimAfter
          rw [if_pos ha]
        rw [this]
        intro m hm
        rcases List.mem_cons.mp hm with rfl | hmt
        · exact ha
        · exact lt_of_lt_of_le ha (hs.1 m hmt)
      · have hwit : ∃ x ∈ t, cutoff < x.timestamp := by
          rcases hex with ⟨x, hx, hxc⟩
          rcases List.mem_cons.mp hx with rfl | hxt
          · exact absurd hxc ha
          · exact ⟨x, hxt, hxc⟩
        rcases htr : trimAfter cutoff t with _ | s
        · rcases hwit with ⟨x, hxt, hxc⟩
          exact absurd hxc (trimAfter_eq_none cutoff t htr x hxt)
        · have h1 : trimHistory cutoff (a :: t) = s := by
            unfold trimHistory trimAfter
            rw [if_neg ha, htr]
          have h2 : trimHistory cutoff t = s := by
            unfold trimHistory
            rw [htr]
          rw [h1, ← h2]
          exact ih hs.2 hwit

theorem trimHistory_sublist (cutoff : Int) (h : List ReplicaLagMetric) :
    (trimHistory cutoff h).Sublist h := by
  induction h with
  | nil => exact List.Sublist.refl []
  | cons a t ih =>
      by_cases ha : cutoff < a.timestamp
      · have : trimHistory cutoff (a :: t) = a :: t := by
          unfold trimHistory trimAfter
          rw [if_pos ha]
        rw [this]
      · rcases htr : trimAfter cutoff t with _ | s
        · have : trimHistory cutoff (a :: t) = a :: t := by
            unfold trimHistory trimAfter
            rw [if_neg ha, htr]
          rw [this]
        · have h1 : trimHistory cutoff (a :: t) = s := by
            unfold trimHistory trimAfter
            rw [if_neg ha, htr]
          have h2 : trimHistory cutoff t = s := by
            unfold trimHistory
            rw [htr]
          rw [h1, ← h2]
          exact ih.trans (List.sublist_cons_self a t)

theorem trimHistory_last (cutoff : Int) (l : List ReplicaLagMetric)
    (m : ReplicaLagMetric) :
    ∃ k, trimHistory cutoff (l ++ [m]) = k ++ [m] := by
  induction l with
  | nil =>
      refine ⟨[], ?_⟩
      simp only [List.nil_append, trimHistory, trimAfter]
      by_cases hm : cutoff < m.timestamp
      · rw [if_pos hm]
      · rw [if_neg hm]
  | cons a t ih =>
      by_cases ha : cutoff < a.timestamp
      · refine ⟨a :: t, ?_⟩
        simp only [List.cons_append, trimHistory, trimAfter, List.append_eq]
        rw [if_pos ha]
      · rcases htr : trimAfter cutoff (t ++ [m]) with _ | s
        · refine ⟨a :: t, ?_⟩
          simp only [List.cons_append, trimHistory, trimAfter,
            List.append_eq]
          rw [if_neg ha, htr]
        · rcases ih with ⟨k, hk⟩
          have h2 : trimHistory cutoff (t ++ [m]) = s := by
            unfold trimHistory
            rw [htr]
          refine ⟨k, ?_⟩
          have h1 : trimHistory cutoff ((a :: t) ++ [m]) = s := by
            simp only [List.cons_append, trimHistory, trimAfter,
              List.append_eq]
            rw [if_neg ha, htr]
          rw [h1, ← h2, hk]

theorem storeReplicaLag_length_le (ms : MetricsStorage)
    (metric : ReplicaLagMetric) (now : Int) :
    (storeReplicaLag ms metric now).replicaLagHistory.length ≤
      ms.maxHistorySize := by
  dsimp only [storeReplicaLag]
  split
  · rw [List.length_drop]
    omega
  · omega

theorem mem_storeReplicaLag_self (ms : MetricsStorage)
    (metric : ReplicaLagMetric) (now : Int)
    (hcap : 1 ≤ ms.maxHistorySize) :
    metric ∈ (storeReplicaLag ms metric now).replicaLagHistory := by
  dsimp only [storeReplicaLag]
  rcases trimHistory_last (now - ms.historyDuration) ms.replicaLagHistory
    metric with ⟨k, hk⟩
  rw [hk]
  split
  · rename_i hlen
    have hle : (k ++ [metric]).length - ms.maxHistorySize ≤ k.length := by
      rw [List.length_append]
      simp
      omega
    rw [List.drop_append_of_le_length hle]
    simp
  · simp

theorem storeReplicaLag_pairwise (ms : MetricsStorage)
    (metric : ReplicaLagMetric) (now : Int)
    (hsorted : ms.replicaLagHistory.Pairwise
      (fun a b => a.timestamp ≤ b.timestamp))
    (hlast : ∀ m ∈ ms.replicaLagHistory, m.timestamp ≤ metric.timestamp) :
    (storeReplicaLag ms metric now).replicaLagHistory.Pairwise
      (fun a b => a.timestamp ≤ b.timestamp) := by
  have happ : (ms.replicaLagHistory ++ [metric]).Pairwise
      (fun a b => a.timestamp ≤ b.timestamp) := by
    rw [List.pairwise_append]
    refine ⟨hsorted, List.pairwise_singleton _ _, ?_⟩
    intro a ha b hb
    rw [List.mem_singleton] at hb
    subst hb
    exact hlast a ha
  have h1 : (trimHistory (now - ms.historyDuration)
      (ms.replicaLagHistory ++ [metric])).Sublist
      (ms.replicaLagHistory ++ [metric]) :=
    trimHistory_sublist _ _
  dsimp only [storeReplicaLag]
  split
  · exact List.Pairwise.sublist ((List.drop_sublist _ _).trans h1) happ
  · exact List.Pairwise.sublist h1 happ

/-- C2 counterexample: the time-based prune fails on a backdated write.
Writing a measurement whose timestamp is two days older than the write
time into an empty store leaves an entry older than 24 hours in the stored
history — the trim loop never breaks when no entry is newer than the
cutoff, so nothing is pruned. -/
theorem C2_backdated_write_counterexample :
    ∃ m ∈ (storeReplicaLag newMetricsStorage
        { databasePair := "db1", timestamp := 0, lagSeconds := 0,
          status := "ok", error := none } 172800).replicaLagHistory,
      m.timestamp < 172800 - 86400 := by
  decide

/-- C2 (amended): after every write the stored lag history has at most
`maxHistorySize` entries (8640 as constructed, unconditionally, hence also
per pair), and — provided the pre-write history is sorted by timestamp,
the written metric is at least as new as every stored entry, and its
timestamp lies inside the 24-hour window at write time (all of which hold
when timestamps are taken from a monotone wall clock at write time) — the
post-write history contains no entry older than 24 hours and remains
sorted, so both pruning rules keep their guarantees on every write of any
such sequence. -/
theorem C2_storeReplicaLag_bounds (ms : MetricsStorage)
    (metric : ReplicaLagMetric) (now : Int)
    (hsorted : ms.replicaLagHistory.Pairwise
      (fun a b => a.timestamp ≤ b.timestamp))
    (hlast : ∀ m ∈ ms.replicaLagHistory, m.timestamp ≤ metric.timestamp)
    (hfresh : now - ms.historyDuration < metric.timestamp) :
    (∀ m ∈ (storeReplicaLag ms metric now).replicaLagHistory,
      now - ms.historyDuration < m.timestamp) ∧
    (storeReplicaLag ms metric now).replicaLagHistory.length ≤
      ms.maxHistorySize ∧
    (∀ p, ((storeReplicaLag ms metric now).replicaLagHistory.filter
        (fun m => m.databasePair = p)).length ≤ ms.maxHistorySize) ∧
    (storeReplicaLag ms metric now).replicaLagHistory.Pairwise
      (fun a b => a.timestamp ≤ b.timestamp) ∧
    newMetricsStorage.maxHistorySize = 8640 ∧
    newMetricsStorage.historyDuration = 86400 := by
  have happ : (ms.replicaLagHistory ++ [metric]).Pairwise
      (fun a b => a.timestamp ≤ b.timestamp) := by
    rw [List.pairwise_append]
    refine ⟨hsorted, List.pairwise_singleton _ _, ?_⟩
    intro a ha b hb
    rw [List.mem_singleton] at hb
    subst hb
    exact hlast a ha
  have hwin := trimHistory_pos (now - ms.historyDuration)
    (ms.replicaLagHistory ++ [metric]) happ
    ⟨metric, by simp, hfresh⟩
  refine ⟨?_, storeReplicaLag_length_le ms metric now, ?_, 
    storeReplicaLag_pairwise ms metric now hsorted hlast, rfl, rfl⟩
  · intro m hm
    dsimp only [storeReplicaLag] at hm
    split at hm
    · exact hwin m (List.drop_subset _ _ hm)
    · exact hwin m hm
  · intro p
    exact le_trans (List.length_filter_le _ _)
      (storeReplicaLag_length_le ms metric now)

/-- Concrete lag-metric fixture used by witnesses. -/
def sampleLag (pair : String) (ts : Int) : ReplicaLagMetric :=
  { databasePair := pair, timestamp := ts, lagSeconds := 1,
    status := "ok", error := none }

/-- C2 witness: a fresh in-window write into an empty store satisfies both
bounds. -/
theorem C2_storeReplicaLag_bounds_witness :
    (∀ m ∈ (storeReplicaLag newMetricsStorage (sampleLag "db1" 100)
        100).replicaLagHistory, 100 - newMetricsStorage.historyDuration <
          m.timestamp) ∧
    (storeReplicaLag newMetricsStorage (sampleLag "db1" 100)
        100).replicaLagHistory.length ≤
      newMetricsStorage.maxHistorySize := by
  have h := C2_storeReplicaLag_bounds newMetricsStorage
    (sampleLag "db1" 100) 100 (by simp [newMetricsStorage]) (by simp [newMetricsStorage])
    (by decide)
  exact ⟨h.1, h.2.1⟩

theorem lookupLag_append (k : String)
    (l1 l2 : List (String × ReplicaLagMetric)) :
    lookupLag k (l1 ++ l2) = (lookupLag k l1).or (lookupLag k l2) := by
  unfold lookupLag
  rw [List.find?_append]
  cases hf : l1.find? (fun p => p.1 = k) <;> simp

theorem lookupLag_singleton_self (k : String) (m : ReplicaLagMetric) :
    lookupLag k [(k, m)] = some m := by
  simp [lookupLag, List.find?]

theorem lookupLag_singleton_ne (k k2 : String) (m : ReplicaLagMetric)
    (h : k2 ≠ k) : lookupLag k [(k2, m)] = none := by
  simp [lookupLag, List.find?, h]

theorem latestLoop_lookup (p : String) (l : List ReplicaLagMetric) :
    ∀ acc : List (String × ReplicaLagMetric),
      lookupLag p (latestLoop l acc) =
        (lookupLag p acc).or
          (l.find? (fun m => m.databasePair = p)) := by
  induction l with
  | nil =>
      intro acc
      simp [latestLoop, List.find?]
  | cons m rest ih =>
      intro acc
      dsimp only [latestLoop]
      by_cases hc : (acc.find? (fun q => q.1 = m.databasePair)).isSome
      · rw [if_pos hc, ih]
        by_cases hp : m.databasePair = p
        · subst hp
          have hsome : (lookupLag m.databasePair acc).isSome := by
            unfold lookupLag
            simpa using hc
          rcases hv : lookupLag m.databasePair acc with _ | v
          · rw [hv] at hsome
            simp at hsome
          · simp
        · rw [List.find?_cons_of_neg _ (by simp [hp])]
      · rw [if_neg hc, ih, lookupLag_append]
        by_cases hp : m.databasePair = p
        · subst hp
          have hnone : lookupLag m.databasePair acc = none := by
            unfold lookupLag
            rcases hf : acc.find? (fun q => q.1 = m.databasePair) with _ | q
            · rw [hf]
              rfl
            · rw [hf] at hc
              simp at hc
          rw [hnone, lookupLag_singleton_self,
            List.find?_cons_of_pos _ (by simp)]
          simp
        · rw [lookupLag_singleton_ne p m.databasePair m hp,
            List.find?_cons_of_neg _ (by simp [hp])]
          simp

theorem find?_reverse_eq_getLast?_filter (q : ReplicaLagMetric → Bool)
    (l : List ReplicaLagMetric) :
    l.reverse.find? q = (l.filter q).getLast? := by
  induction l using List.reverseRecOn with
  | nil => rfl
  | append_singleton t a ih =>
      rw [List.reverse_append, List.filter_append]
      by_cases hq : q a
      · rw [List.reverse_singleton, List.singleton_append,
          List.find?_cons_of_pos _ hq]
        have : List.filter q [a] = [a] := by simp [hq]
        rw [this, List.getLast?_concat]
      · rw [List.reverse_singleton, List.singleton_append,
          List.find?_cons_of_neg _ (by simpa using hq)]
        have : List.filter q [a] = [] := by simp [hq]
        rw [this, List.append_nil, ih]

/-- C3: for every store state and every pair with at least one lag entry,
the latest-lag-per-pair map of the `GetCurrentMetrics` snapshot — built
only by scanning the shared lag history backward, never kept as a separate
field — holds exactly the last (most recently appended) history entry for
that pair. -/
theorem C3_snapshot_latest_lag (ms : MetricsStorage) (p : String)
    (hp : ∃ m ∈ ms.replicaLagHistory, m.databasePair = p) :
    lookupLag p (getCurrentMetricsReplicaLag ms) =
      (ms.replicaLagHistory.filter
        (fun x => x.databasePair = p)).getLast? ∧
    ∃ m, lookupLag p (getCurrentMetricsReplicaLag ms) = some m ∧
      (ms.replicaLagHistory.filter
        (fun x => x.databasePair = p)).getLast? = some m := by
  have heq : lookupLag p (getCurrentMetricsReplicaLag ms) =
      (ms.replicaLagHistory.filter
        (fun x => x.databasePair = p)).getLast? := by
    unfold getCurrentMetricsReplicaLag
    rw [latestLoop_lookup]
    have hnil : lookupLag p ([] : List (String × ReplicaLagMetric)) =
        none := rfl
    rw [hnil, Option.none_or]
    exact find?_reverse_eq_getLast?_filter _ _
  refine ⟨heq, ?_⟩
  rcases hp with ⟨m, hm, hmp⟩
  have hmem : m ∈ ms.replicaLagHistory.filter
      (fun x => x.databasePair = p) :=
    List.mem_filter.mpr ⟨hm, by simp [hmp]⟩
  rcases hlast : (ms.replicaLagHistory.filter
      (fun x => x.databasePair = p)).getLast? with _ | v
  · rw [List.getLast?_eq_none_iff] at hlast
    rw [hlast] at hmem
    cases hmem
  · exact ⟨v, by rw [heq, hlast], hlast⟩

/-- C3 witness: with entries for `db1`, `db2`, `db1` in that order, the
snapshot map for `db1` holds the last `db1` entry. -/
theorem C3_snapshot_latest_lag_witness :
    ∃ m, lookupLag "db1" (getCurrentMetricsReplicaLag
        { newMetricsStorage with replicaLagHistory :=
            [sampleLag "db1" 1, sampleLag "db2" 2, sampleLag "db1" 3] }) =
      some m ∧
      ([sampleLag "db1" 1, sampleLag "db2" 2,
        sampleLag "db1" 3].filter
          (fun x => x.databasePair = "db1")).getLast? = some m :=
  (C3_snapshot_latest_lag
    { newMetricsStorage with replicaLagHistory :=
        [sampleLag "db1" 1, sampleLag "db2" 2, sampleLag "db1" 3] }
    "db1" ⟨sampleLag "db1" 1, by simp, rfl⟩).2

end storage



namespace monitor

theorem foldl_checksumStep_lag_history (p : String) (now : Int) :
    ∀ (cs : List ChecksumResult) (st : SystemState),
      (cs.foldl (checksumStep p now) st).storage.replicaLagHistory =
        st.storage.replicaLagHistory := by
  intro cs
  induction cs with
  | nil => intro st; rfl
  | cons r t ih =>
      intro st
      rw [List.foldl_cons, ih]
      rfl

theorem foldl_consistencyStep_lag_history (p : String) (now : Int) :
    ∀ (cc : List ConsistencyResult) (st : SystemState),
      (cc.foldl (consistencyStep p now) st).storage.replicaLagHistory =
        st.storage.replicaLagHistory := by
  intro cc
  induction cc with
  | nil => intro st; rfl
  | cons r t ih =>
      intro st
      rw [List.foldl_cons, ih]
      rfl

/-- C7: in one pair cycle, the lag probe takes effect exactly when the
target side is reachable — its stored measurement appears in the lag
history for any source health — while the fingerprint (checksum) and count
(consistency) probes take effect if and only if both sides are reachable
and the pair has at least one monitored table; with the source down and
the target up, the lag measurement is still produced and evaluated and the
checksum/consistency state is untouched. -/
theorem C7_probe_gating (st : SystemState) (pm : DatabasePairMonitor)
    (sourceOK targetOK : Bool) (lagOutcome : SlaveStatusOutcome)
    (cs : List ChecksumResult) (cc : List ConsistencyResult) (now : Int) :
    (targetOK = true → 1 ≤ st.storage.maxHistorySize →
      toStorageLag pm.pairName (measureLag lagOutcome now) ∈
        (monitorDatabasePair st pm sourceOK targetOK lagOutcome cs cc
          now).storage.replicaLagHistory) ∧
    (targetOK = false →
      (monitorDatabasePair st pm sourceOK targetOK lagOutcome cs cc
        now).storage.replicaLagHistory = st.storage.replicaLagHistory ∧
      (monitorDatabasePair st pm sourceOK targetOK lagOutcome cs cc
        now).alertMgr = st.alertMgr) ∧
    (¬(sourceOK = true ∧ targetOK = true ∧ pm.tables ≠ []) →
      (monitorDatabasePair st pm sourceOK targetOK lagOutcome cs cc
        now).storage.checksumResults = st.storage.checksumResults ∧
      (monitorDatabasePair st pm sourceOK targetOK lagOutcome cs cc
        now).storage.consistencyResults =
          st.storage.consistencyResults) ∧
    (sourceOK = false → targetOK = true →
      (monitorDatabasePair st pm sourceOK targetOK lagOutcome cs cc
        now).alertMgr = alert.evaluateReplicaLag st.alertMgr pm.pairName
          (some (toAlertLag (measureLag lagOutcome now))) now) ∧
    (sourceOK = true → targetOK = true → pm.tables ≠ [] →
      monitorDatabasePair st pm sourceOK targetOK lagOutcome cs cc now =
        cc.foldl (consistencyStep pm.pairName now)
          (cs.foldl (checksumStep pm.pairName now)
            (lagStep (healthStep st pm.pairName true true now)
              pm.pairName lagOutcome now))) := by
  refine ⟨?_, ?_, ?_, ?_, ?_⟩
  · intro ht hcap
    subst ht
    dsimp only [monitorDatabasePair]
    by_cases htb : pm.tables.length > 0
    · rw [if_pos htb]
      by_cases hg : (sourceOK && true) = true
      · rw [if_pos hg, if_pos hg, foldl_consistencyStep_lag_history,
          foldl_checksumStep_lag_history, if_pos rfl]
        exact storage.mem_storeReplicaLag_self _ _ _ hcap
      · rw [if_neg hg, if_neg hg, if_pos rfl]
        exact storage.mem_storeReplicaLag_self _ _ _ hcap
    · rw [if_neg htb, if_pos rfl]
      exact storage.mem_storeReplicaLag_self _ _ _ hcap
  · intro ht
    subst ht
    dsimp only [monitorDatabasePair]
    have hguard : ¬((sourceOK && false) = true) := by simp
    have hlag : ¬(false = true) := by simp
    by_cases htb : pm.tables.length > 0
    · rw [if_pos htb, if_neg hguard, if_neg hguard, if_neg hlag]
      exact ⟨rfl, rfl⟩
    · rw [if_neg htb, if_neg hlag]
      exact ⟨rfl, rfl⟩
  · intro hng
    dsimp only [monitorDatabasePair]
    by_cases htb : pm.tables.length > 0
    · have htne : pm.tables ≠ [] := by
        intro hh
        rw [hh] at htb
        simp at htb
      have hguard : ¬((sourceOK && targetOK) = true) := by
        intro hg
        simp only [Bool.and_eq_true] at hg
        exact hng ⟨hg.1, hg.2, htne⟩
      rw [if_pos htb, if_neg hguard, if_neg hguard]
      by_cases ht : targetOK = true
      · rw [if_pos ht]
        exact ⟨rfl, rfl⟩
      · rw [if_neg ht]
        exact ⟨rfl, rfl⟩
    · rw [if_neg htb]
      by_cases ht : targetOK = true
      · rw [if_pos ht]
        exact ⟨rfl, rfl⟩
      · rw [if_neg ht]
        exact ⟨rfl, rfl⟩
  · intro hs ht
    subst hs
    subst ht
    dsimp only [monitorDatabasePair]
    have hguard : ¬((false && true) = true) := by simp
    by_cases htb : pm.tables.length > 0
    · rw [if_pos htb, if_neg hguard, if_neg hguard, if_pos rfl]
      rfl
    · rw [if_neg htb, if_pos rfl]
      rfl
  · intro hs ht htne
    subst hs
    subst ht
    dsimp only [monitorDatabasePair]
    rw [if_pos (List.length_pos.mpr htne)]
    rfl

/-- C7 witness: with source down, target up and one monitored table, the
cycle still stores the lag measurement, evaluates it, and leaves the
checksum and consistency state untouched. -/
theorem C7_probe_gating_witness :
    (toStorageLag "db1"
        (measureLag (.row (some "Yes") (some "Yes") (some 5)) 10) ∈
      (monitorDatabasePair
        { storage := storage.newMetricsStorage,
          alertMgr := alert.newAlertManager 60 }
        { pairName := "db1", tables := ["users"] }
        false true (.row (some "Yes") (some "Yes") (some 5)) [] []
        10).storage.replicaLagHistory) ∧
    (monitorDatabasePair
        { storage := storage.newMetricsStorage,
          alertMgr := alert.newAlertManager 60 }
        { pairName := "db1", tables := ["users"] }
        false true (.row (some "Yes") (some "Yes") (some 5)) [] []
        10).storage.checksumResults =
      storage.newMetricsStorage.checksumResults ∧
    (monitorDatabasePair
        { storage := storage.newMetricsStorage,
          alertMgr := alert.newAlertManager 60 }
        { pairName := "db1", tables := ["users"] }
        false true (.row (some "Yes") (some "Yes") (some 5)) [] []
        10).alertMgr =
      alert.evaluateReplicaLag (alert.newAlertManager 60) "db1"
        (some (toAlertLag
          (measureLag (.row (some "Yes") (some "Yes") (some 5)) 10)))
        10 := by
  have h := C7_probe_gating
    { storage := storage.newMetricsStorage,
      alertMgr := alert.newAlertManager 60 }
    { pairName := "db1", tables := ["users"] }
    false true (.row (some "Yes") (some "Yes") (some 5)) [] [] 10
  refine ⟨h.1 rfl (by decide), (h.2.2.1 ?_).1, h.2.2.2.1 rfl rfl⟩
  rintro ⟨h1, -, -⟩
  exact absurd h1 (by decide)

end monitor
